import Mathlib

/-!
Shallow embedding of the LittleLemon restaurant API
(`LittleLemonDRF/views-function.py` and `LittleLemonDRF/serializers.py`).

Rows of the persisted tables are Lean structures; the database is a record
of lists of rows.  Each Django view function becomes a Lean function from
the database, the requesting user and the request data to a `Response`
(body and HTTP status code) together with the new database.  Monetary
values (`DecimalField`) are rationals; primary keys are naturals.

`Model.objects.get(...)` / `get_object_or_404` are embedded by matching on
`List.filter`: no match is `DoesNotExist` (404 when wrapped by
`get_object_or_404`, otherwise an uncaught exception, i.e. a 500 server
error), more than one match is `MultipleObjectsReturned` (uncaught, 500).

A peculiarity of the source that the embedding keeps: several places call
`Response(status.HTTP_204_NO_CONTENT)` (resp. `HTTP_404_NOT_FOUND`), which
passes the numeric status code as the *data* positional argument of
`rest_framework.response.Response`, so the HTTP status is the default 200
and the body is the bare integer.
-/

namespace LittleLemon

/-- A `django.contrib.auth` user: primary key and names of the groups the
user belongs to. -/
structure User where
  id : Nat
  groups : List String
  deriving Repr, DecidableEq

/-- `request.user.groups.filter(name="Manager").exists()`. -/
def User.isManager (u : User) : Bool := u.groups.contains "Manager"

/-- `request.user.groups.filter(name="Delivery crew").exists()`. -/
def User.isDeliveryCrew (u : User) : Bool := u.groups.contains "Delivery crew"

/-- Category row: `id`, `title`, `slug` (fields of `CategorySerializer`). -/
structure Category where
  id : Nat
  title : String
  slug : String
  deriving Repr, DecidableEq

/-- MenuItem row: `id`, `title`, `price`, `category` (foreign key),
`featured` (fields of `MenuItemSerializer`). -/
structure MenuItem where
  id : Nat
  title : String
  price : Rat
  category : Nat
  featured : Bool
  deriving Repr, DecidableEq

/-- Cart row: `user`, `menuitem`, `quantity`, `unit_price`, `price`
(fields of `CartSerializer`). -/
structure Cart where
  user : Nat
  menuitem : Nat
  quantity : Nat
  unit_price : Rat
  price : Rat
  deriving Repr, DecidableEq

/-- Modelled from the spec: `models.py` is not among the sources, so the
`Order` fields follow spec §3 and the fields of `OrderSerializer`
(`id`, `user`, `delivery_crew` nullable, `status` with 0 = out for
delivery / 1 = delivered, `date`, `total`) plus the `orderitem_id`
reference the checkout view writes (`views-function.py` line 425). -/
structure Order where
  id : Nat
  user : Nat
  delivery_crew : Option Nat
  status : Bool
  date : Nat
  total : Rat
  orderitem : Nat
  deriving Repr, DecidableEq

/-- Modelled from the spec: `models.py` is not among the sources, so the
`OrderItem` fields follow spec §3 (menuitem reference, quantity, price)
plus the `user` and `unit_price` fields the checkout view sends and
queries by (`views-function.py` lines 411-421). -/
structure OrderItem where
  id : Nat
  user : Nat
  menuitem : Nat
  quantity : Nat
  unit_price : Rat
  price : Rat
  deriving Repr, DecidableEq

/-- Rating row: `user`, `menuitem_id`, `rating`
(fields of `RatingSerializer`). -/
structure Rating where
  user : Nat
  menuitem : Nat
  rating : Int
  deriving Repr, DecidableEq

/-- The persisted state: one list of rows per table. -/
structure DB where
  categories : List Category
  menuItems : List MenuItem
  carts : List Cart
  orders : List Order
  orderItems : List OrderItem
  ratings : List Rating
  deriving Repr, DecidableEq

/-- Response bodies, at the granularity the claims need: serialized rows
(a serializer's output keeps exactly the row's fields here), a message
dict, or a bare integer (see the `Response(status.HTTP_204_NO_CONTENT)`
remark in the file header). -/
inductive Body where
  | empty : Body
  | msg : String → Body
  | intVal : Nat → Body
  | categoryList : List Category → Body
  | menuItemList : List MenuItem → Body
  | cartOne : Cart → Body
  | orderList : List Order → Body
  | orderOne : Order → Body
  | ratingOne : Rating → Body
  deriving Repr, DecidableEq

/-- `rest_framework.response.Response`: data and HTTP status code. -/
structure Response where
  body : Body
  status : Nat
  deriving Repr, DecidableEq

/-- `Response({"message": "You are not authorized."}, status.HTTP_403_FORBIDDEN)`. -/
def forbidden : Response := ⟨.msg "You are not authorized.", 403⟩

/-- The 404 page `get_object_or_404` renders on `DoesNotExist`. -/
def notFound : Response := ⟨.msg "Not found.", 404⟩

/-- An uncaught exception (`DoesNotExist` outside `get_object_or_404`,
`MultipleObjectsReturned`, `KeyError`, serializer misuse) surfaces as an
internal server error. -/
def serverError : Response := ⟨.empty, 500⟩

/-- Next primary key assigned on insert. -/
def freshId (ids : List Nat) : Nat := ids.foldr max 0 + 1

/-- Endpoint `/api/category`, POST branch (`views-function.py` 45-64):
a Manager's POST validates and saves a new category (201); any other
authenticated user's POST falls through to the 403 response. -/
def category_post (db : DB) (u : User) (title slug : String) : Response × DB :=
  if u.isManager then
    let c : Category := ⟨freshId (db.categories.map Category.id), title, slug⟩
    (⟨.categoryList [c], 201⟩, { db with categories := db.categories ++ [c] })
  else
    (forbidden, db)

/-- Endpoint `/api/orders/{orderId}`, GET branch (`views-function.py`
452-459): `get_object_or_404(Order, pk=id)`, then 403 whenever
`order.user != request.user`, else the serialized order with 200. -/
def order_single_get (db : DB) (u : User) (oid : Nat) : Response :=
  match db.orders.filter (fun o => o.id == oid) with
  | [] => notFound
  | [o] => if o.user ≠ u.id then forbidden else ⟨.orderOne o, 200⟩
  | _ => serverError

/-- `CartSerializer.validate` (`serializers.py` 39-41): overwrite the
`price` attribute with `quantity * unit_price`. -/
def cartSerializerValidate (attrs : Cart) : Cart :=
  { attrs with price := (attrs.quantity : Rat) * attrs.unit_price }

/-- Endpoint `/api/cart/menu-items`, POST branch (`views-function.py`
334-354): 400 if the user already has a cart; otherwise
`MenuItem.objects.get(pk=menuitem)` (an uncaught exception, 500, if the
menu item is absent or its id duplicated) and the arithmetic on
`unit_price`/`price` succeed, but `CartSerializer(data=data)` is
instantiated with no context, so validating the declared `user` field's
`CurrentUserDefault` reads `context['request']` and raises
`KeyError('request')` — an uncaught exception, 500 — before any save (and
the data key `menuitem_id` would in any case never feed the declared
required `menuitem` field, `serializers.py` 43-45).  No Cart row is ever
created by this view. -/
def cart_post (db : DB) (u : User) (menuitem : Nat) (quantity : Nat) :
    Response × DB :=
  if db.carts.any (fun c => c.user == u.id) then
    (⟨.msg "The user has already a cart.", 400⟩, db)
  else
    match db.menuItems.filter (fun m => m.id == menuitem) with
    | [_] => (serverError, db)
    | _ => (serverError, db)

/-- Endpoint `/api/cart/menu-items`, DELETE branch (`views-function.py`
355-358): `get_object_or_404(Cart, user=request.user)`, delete it, and
`Response(status.HTTP_204_NO_CONTENT)` — the 204 constant is passed as the
response *data*, so the HTTP status is the default 200. -/
def cart_delete (db : DB) (u : User) : Response × DB :=
  match db.carts.filter (fun c => c.user == u.id) with
  | [] => (notFound, db)
  | [_] => (⟨.intVal 204, 200⟩,
            { db with carts := db.carts.filter (fun c => c.user != u.id) })
  | _ => (serverError, db)

/-- `/api/ratings` POST (`RatingsView` with `RatingSerializer`,
`serializers.py` 63-78): the `rating` field carries
`min_value 0, max_value 5`, and a `UniqueTogetherValidator` over
`(user, menuitem_id)`; a validation failure is a 400, otherwise the row is
saved and 201 returned. -/
def rating_post (db : DB) (u : User) (menuitem : Nat) (rating : Int) :
    Response × DB :=
  if rating < 0 ∨ 5 < rating then
    (⟨.msg "rating out of range", 400⟩, db)
  else if db.ratings.any (fun r => r.user == u.id && r.menuitem == menuitem) then
    (⟨.msg "duplicate rating", 400⟩, db)
  else
    let r : Rating := ⟨u.id, menuitem, rating⟩
    (⟨.ratingOne r, 201⟩, { db with ratings := db.ratings ++ [r] })

/-- The optional query parameters read by the list GET views
(`views-function.py` 123-128 and 376-380); an absent parameter is `none`
and the view applies its default. -/
structure ListQuery where
  category : Option String := none
  to_price : Option Rat := none
  search : Option String := none
  ordering : Option String := none
  perpage : Option Nat := none
  page : Option Nat := none
  deriving Repr, DecidableEq

/-- Is `pre` a prefix of `l`? -/
def charsPre : List Char → List Char → Bool
  | [], _ => true
  | _ :: _, [] => false
  | a :: as, b :: bs => a == b && charsPre as bs

/-- Is `needle` a contiguous sublist of `hay`? -/
def charsInfix (needle : List Char) : List Char → Bool
  | [] => needle.isEmpty
  | c :: rest => charsPre needle (c :: rest) || charsInfix needle rest

/-- Django's `__icontains` lookup: case-insensitive substring match. -/
def icontains (needle hay : String) : Bool :=
  charsInfix needle.toLower.data hay.toLower.data

/-- Three-way comparison on rationals. -/
def ratCmp (a b : Rat) : Ordering :=
  if a < b then .lt else if b < a then .gt else .eq

/-- Three-way comparison on nullable foreign keys (`NULL` first). -/
def optNatCmp : Option Nat → Option Nat → Ordering
  | none, none => .eq
  | none, some _ => .lt
  | some _, none => .gt
  | some a, some b => compare a b

/-- Split a Django `order_by` field into name and descending flag
(leading `-`). -/
def fieldWithDir (f : String) : String × Bool :=
  if f.startsWith "-" then (f.drop 1, true) else (f, false)

/-- Comparison of two menu items on one model field; `none` for a field
name the model does not have (Django raises `FieldError`). -/
def menuFieldCmp (f : String) (a b : MenuItem) : Option Ordering :=
  if f == "id" then some (compare a.id b.id)
  else if f == "title" then some (compare a.title b.title)
  else if f == "price" then some (ratCmp a.price b.price)
  else if f == "category" then some (compare a.category b.category)
  else if f == "featured" then some (compare (cond a.featured 1 0) (cond b.featured 1 0))
  else none

/-- One `order_by` field applied to menu items, direction included. -/
def menuCmpOne (f : String) (a b : MenuItem) : Option Ordering :=
  let fd := fieldWithDir f
  (menuFieldCmp fd.1 a b).map (fun o => if fd.2 then o.swap else o)

/-- Lexicographic comparison along an `order_by` field list. -/
def menuCmp (fs : List String) (a b : MenuItem) : Option Ordering :=
  match fs with
  | [] => some .eq
  | f :: rest =>
    match menuCmpOne f a b with
    | none => none
    | some .eq => menuCmp rest a b
    | some o => some o

/-- Insertion into a list sorted by `le`, keeping existing order on ties. -/
def insertLe (le : α → α → Bool) (x : α) : List α → List α
  | [] => [x]
  | y :: ys => if le x y then x :: y :: ys else y :: insertLe le x ys

/-- Stable insertion sort by `le`. -/
def sortLe (le : α → α → Bool) : List α → List α
  | [] => []
  | x :: xs => insertLe le x (sortLe le xs)

/-- Is `f` (direction stripped) the name of a MenuItem model field? -/
def menuFieldValid (f : String) : Bool :=
  let n := (fieldWithDir f).1
  n == "id" || n == "title" || n == "price" || n == "category" || n == "featured"

/-- `items.order_by(*fields)` on menu items: `none` when a field name is
invalid (uncaught `FieldError`); otherwise a deterministic sort by the
lexicographic field comparison. -/
def menuOrderBy (fs : List String) (items : List MenuItem) :
    Option (List MenuItem) :=
  if fs.all menuFieldValid then
    some (sortLe (fun a b => ((menuCmp fs a b).getD .eq) != Ordering.gt) items)
  else none

/-- `django.core.paginator.Paginator.num_pages` for `per_page > 0`:
`ceil(max(1, count) / per_page)`. -/
def numPages (count perpage : Nat) : Nat :=
  max 1 ((count + perpage - 1) / perpage)

/-- `Paginator(items, per_page).page(number)`: pages are 1-based slices of
`per_page` items; a number below 1 or beyond `num_pages` raises
`EmptyPage`, embedded as `none`. -/
def paginatorPage (items : List α) (perpage page : Nat) : Option (List α) :=
  if 1 ≤ page ∧ page ≤ numPages items.length perpage then
    some ((items.drop ((page - 1) * perpage)).take perpage)
  else none

/-- The filter pipeline of `/api/menu-items` GET (`views-function.py`
129-134): optional exact category-title match, `price__lte`, and
case-insensitive title substring search, in that order. -/
def menuFiltered (db : DB) (q : ListQuery) : List MenuItem :=
  let items := db.menuItems
  let items := match q.category with
    | none => items
    | some n => items.filter (fun m =>
        db.categories.any (fun c => c.id == m.category && c.title == n))
  let items := match q.to_price with
    | none => items
    | some p => items.filter (fun m => decide (m.price ≤ p))
  match q.search with
  | none => items
  | some s => items.filter (fun m => icontains s m.title)

/-- Filtering followed by the optional `ordering` parameter, split on `,`
(`views-function.py` 135-137); `none` when `order_by` faults. -/
def menuSorted (db : DB) (q : ListQuery) : Option (List MenuItem) :=
  match q.ordering with
  | none => some (menuFiltered db q)
  | some o => menuOrderBy (o.splitOn ",") (menuFiltered db q)

/-- Endpoint `/api/menu-items`, GET branch (`views-function.py` 121-145):
filter, sort, then paginate with `perpage` defaulting to 2 and `page`
defaulting to 1; an `EmptyPage` exception is caught and replaced by the
empty list; `per_page = 0` makes `Paginator` divide by zero (500). -/
def menuitems_get (db : DB) (q : ListQuery) : Response :=
  match menuSorted db q with
  | none => serverError
  | some items =>
    let pp := q.perpage.getD 2
    if pp == 0 then serverError
    else ⟨.menuItemList ((paginatorPage items pp (q.page.getD 1)).getD []), 200⟩

/-- Endpoint `/api/menu-items/{menuItem}`, DELETE branch
(`views-function.py` 162-186): `get_object_or_404(MenuItem, pk=id)`, 403
unless the requester is a Manager, else delete the item and
`Response(status.HTTP_204_NO_CONTENT)` — again the 204 constant is the
response *data* and the HTTP status is the default 200. -/
def menuitems_single_delete (db : DB) (u : User) (id : Nat) : Response × DB :=
  match db.menuItems.filter (fun m => m.id == id) with
  | [] => (notFound, db)
  | [_] =>
    if ¬ u.isManager then (forbidden, db)
    else (⟨.intVal 204, 200⟩,
          { db with menuItems := db.menuItems.filter (fun m => m.id != id) })
  | _ => (serverError, db)

/-- SQLite stores the boolean `status` column as 0/1; `status__icontains`
therefore matches against that digit. -/
def orderStatusStr (o : Order) : String := if o.status then "1" else "0"

/-- Comparison of two orders on one model field; `none` for a field name
the model does not have. -/
def orderFieldCmp (f : String) (a b : Order) : Option Ordering :=
  if f == "id" then some (compare a.id b.id)
  else if f == "user" then some (compare a.user b.user)
  else if f == "delivery_crew" then some (optNatCmp a.delivery_crew b.delivery_crew)
  else if f == "status" then
    some (compare (cond a.status 1 0) (cond b.status 1 0))
  else if f == "date" then some (compare a.date b.date)
  else if f == "total" then some (ratCmp a.total b.total)
  else none

/-- One `order_by` field applied to orders, direction included. -/
def orderCmpOne (f : String) (a b : Order) : Option Ordering :=
  let fd := fieldWithDir f
  (orderFieldCmp fd.1 a b).map (fun o => if fd.2 then o.swap else o)

/-- Lexicographic comparison of orders along an `order_by` field list. -/
def orderCmp (fs : List String) (a b : Order) : Option Ordering :=
  match fs with
  | [] => some .eq
  | f :: rest =>
    match orderCmpOne f a b with
    | none => none
    | some .eq => orderCmp rest a b
    | some o => some o

/-- Is `f` (direction stripped) the name of an Order model field? -/
def orderFieldValid (f : String) : Bool :=
  let n := (fieldWithDir f).1
  n == "id" || n == "user" || n == "delivery_crew" || n == "status" ||
    n == "date" || n == "total"

/-- `orders.order_by(*fields)`: `none` when a field name is invalid. -/
def orderOrderBy (fs : List String) (items : List Order) :
    Option (List Order) :=
  if fs.all orderFieldValid then
    some (sortLe (fun a b => ((orderCmp fs a b).getD .eq) != Ordering.gt) items)
  else none

/-- The Manager filter pipeline of `/api/orders` GET (`views-function.py`
381-384): optional `total__lte` and case-insensitive `status` substring
search. -/
def ordersFiltered (db : DB) (q : ListQuery) : List Order :=
  let orders := db.orders
  let orders := match q.to_price with
    | none => orders
    | some p => orders.filter (fun o => decide (o.total ≤ p))
  match q.search with
  | none => orders
  | some s => orders.filter (fun o => icontains s (orderStatusStr o))

/-- Manager filtering followed by the optional `ordering` parameter
(`views-function.py` 385-387). -/
def ordersSorted (db : DB) (q : ListQuery) : Option (List Order) :=
  match q.ordering with
  | none => some (ordersFiltered db q)
  | some o => orderOrderBy (o.splitOn ",") (ordersFiltered db q)

/-- Endpoint `/api/orders`, GET branch (`views-function.py` 373-406).
A Manager gets the filtered, sorted, paginated view of all orders
(`perpage` default 2, `page` default 1, `EmptyPage` caught as the empty
list).  Otherwise a Delivery crew member gets exactly the orders whose
`delivery_crew` is themselves.  Otherwise (customer) the source runs
`OrderSerializer(order)` on a queryset without `many=True` when the user
has orders — serialization raises `AttributeError`, a 500 — and when the
user has none it runs `Response(status.HTTP_404_NOT_FOUND)`, which puts
the integer 404 in the body of a 200 response. -/
def order_get (db : DB) (u : User) (q : ListQuery) : Response :=
  if u.isManager then
    match ordersSorted db q with
    | none => serverError
    | some orders =>
      let pp := q.perpage.getD 2
      if pp == 0 then serverError
      else ⟨.orderList ((paginatorPage orders pp (q.page.getD 1)).getD []), 200⟩
  else if u.isDeliveryCrew then
    ⟨.orderList (db.orders.filter (fun o => o.delivery_crew == some u.id)), 200⟩
  else if db.orders.any (fun o => o.user == u.id) then
    serverError
  else
    ⟨.intVal 404, 200⟩

/-- The 400 response `is_valid(raise_exception=True)` produces when the
submitted data lacks a serializer's required fields (the per-field error
detail is collapsed to its message). -/
def validationFailed : Response := ⟨.msg "This field is required.", 400⟩

/-- Endpoint `/api/orders`, POST branch — checkout (`views-function.py`
407-433).  `get_object_or_404(Cart, user=request.user)` raises 404 when
the user has no cart and an uncaught `MultipleObjectsReturned` (500) when
more than one.  The view then builds `orderitem_data` under the keys
`user_id`, `menuitem_id`, `quantity`, `unit_price`, `price`, but
`OrderItemSerializer` (`serializers.py` 49-52) declares only the fields
`order`, `menuitem`, `quantity`, `price`: the undeclared keys are ignored
and the required `order` and `menuitem` fields receive no value, so
`is_valid(raise_exception=True)` answers 400 before any save.  No
OrderItem or Order is ever created and the cart is never deleted. -/
def order_post (db : DB) (u : User) : Response × DB :=
  match db.carts.filter (fun c => c.user == u.id) with
  | [] => (notFound, db)
  | [_] => (validationFailed, db)
  | _ => (serverError, db)

/-- A partial update payload for `OrderSerializer(..., partial=True)`:
absent fields are `none`; `delivery_crew` may be present and null. -/
structure OrderPatchData where
  user : Option Nat := none
  delivery_crew : Option (Option Nat) := none
  status : Option Bool := none
  date : Option Nat := none
  total : Option Rat := none
  deriving Repr, DecidableEq

/-- Apply a partial update to an order (the serializer's writable fields;
`id` and the read-only `orderitem` are untouched). -/
def applyOrderPatch (d : OrderPatchData) (o : Order) : Order :=
  { o with
    user := d.user.getD o.user,
    delivery_crew := d.delivery_crew.getD o.delivery_crew,
    status := d.status.getD o.status,
    date := d.date.getD o.date,
    total := d.total.getD o.total }

/-- `instance.save()` after a serializer update: rewrite the row with the
order's primary key. -/
def updateOrder (db : DB) (oid : Nat) (f : Order → Order) : DB :=
  { db with orders := db.orders.map (fun o => if o.id == oid then f o else o) }

/-- Endpoint `/api/orders/{orderId}`, PATCH branch (`views-function.py`
470-491).  A Delivery crew requester (checked first) gets 403 unless the
order's `delivery_crew` is themselves; otherwise the view reads
`request.data["status"]` (a `KeyError`, 500, when absent) and saves a
partial update carrying only that field.  Failing that, a Manager saves
the partial payload as given.  Anyone else gets 403. -/
def order_single_patch (db : DB) (u : User) (oid : Nat) (d : OrderPatchData) :
    Response × DB :=
  match db.orders.filter (fun o => o.id == oid) with
  | [] => (notFound, db)
  | [o] =>
    if u.isDeliveryCrew then
      if o.delivery_crew ≠ some u.id then (forbidden, db)
      else
        match d.status with
        | none => (serverError, db)
        | some s =>
          (⟨.orderOne { o with status := s }, 205⟩,
           updateOrder db oid (fun x => { x with status := s }))
    else if u.isManager then
      (⟨.orderOne (applyOrderPatch d o), 205⟩,
       updateOrder db oid (applyOrderPatch d))
    else (forbidden, db)
  | _ => (serverError, db)

/-- A full update payload for `OrderSerializer` without `partial`: every
writable field present. -/
structure OrderPutData where
  user : Nat
  delivery_crew : Option Nat
  status : Bool
  date : Nat
  total : Rat
  deriving Repr, DecidableEq

/-- Endpoint `/api/orders/{orderId}`, PUT branch (`views-function.py`
460-469): Manager only; a full serializer update of the order's writable
fields. -/
def order_single_put (db : DB) (u : User) (oid : Nat) (d : OrderPutData) :
    Response × DB :=
  match db.orders.filter (fun o => o.id == oid) with
  | [] => (notFound, db)
  | [o] =>
    if ¬ u.isManager then (forbidden, db)
    else
      let f : Order → Order := fun x =>
        { x with user := d.user, delivery_crew := d.delivery_crew,
                 status := d.status, date := d.date, total := d.total }
      (⟨.orderOne (f o), 205⟩, updateOrder db oid f)
  | _ => (serverError, db)

/-- Endpoint `/api/orders/{orderId}`, DELETE branch (`views-function.py`
492-498): Manager only; delete the order, then
`Response(status.HTTP_204_NO_CONTENT)` — the 204 constant is the response
*data*, the HTTP status is the default 200. -/
def order_single_delete (db : DB) (u : User) (oid : Nat) : Response × DB :=
  match db.orders.filter (fun o => o.id == oid) with
  | [] => (notFound, db)
  | [_] =>
    if ¬ u.isManager then (forbidden, db)
    else (⟨.intVal 204, 200⟩,
          { db with orders := db.orders.filter (fun o => o.id != oid) })
  | _ => (serverError, db)

/-- Claim C10: for every existing order, GET /orders/{id} returns Forbidden
whenever the order's user is not the requester — whatever groups the
requester belongs to — and returns the serialized order (200) exactly when
the requester is the order's owner. -/
theorem order_single_get_owner_only (db : DB) (u : User) (oid : Nat) (o : Order)
    (h : db.orders.filter (fun x => x.id == oid) = [o]) :
    (o.user ≠ u.id → order_single_get db u oid = forbidden) ∧
    (o.user = u.id → order_single_get db u oid = ⟨.orderOne o, 200⟩) := by
  simp only [order_single_get, h]
  constructor
  · intro hne
    rw [if_pos hne]
  · intro he
    simp [he]

/-- Witness for C10: a concrete database where a Manager who is not the
owner is refused and the owner is served. -/
theorem order_single_get_owner_only_witness :
    order_single_get ⟨[], [], [], [⟨1, 7, some 3, false, 0, 10, 1⟩], [], []⟩
        ⟨2, ["Manager"]⟩ 1 = forbidden ∧
    order_single_get ⟨[], [], [], [⟨1, 7, some 3, false, 0, 10, 1⟩], [], []⟩
        ⟨7, []⟩ 1 = ⟨.orderOne ⟨1, 7, some 3, false, 0, 10, 1⟩, 200⟩ := by
  constructor
  · exact (order_single_get_owner_only
      ⟨[], [], [], [⟨1, 7, some 3, false, 0, 10, 1⟩], [], []⟩ ⟨2, ["Manager"]⟩ 1
      ⟨1, 7, some 3, false, 0, 10, 1⟩ (by decide)).1 (by decide)
  · exact (order_single_get_owner_only
      ⟨[], [], [], [⟨1, 7, some 3, false, 0, 10, 1⟩], [], []⟩ ⟨7, []⟩ 1
      ⟨1, 7, some 3, false, 0, 10, 1⟩ (by decide)).2 rfl

/-- Claim C4: a request denied by a role check returns the Forbidden
response and leaves the database unchanged: a non-Manager POST to
/categories, a non-Manager PUT or DELETE of an order, a Delivery crew
PATCH of an order not assigned to them, and a PATCH by a user in neither
group. -/
theorem role_denied_no_side_effects :
    (∀ (db : DB) (u : User) (title slug : String), u.isManager = false →
       category_post db u title slug = (forbidden, db)) ∧
    (∀ (db : DB) (u : User) (oid : Nat) (d : OrderPutData) (o : Order),
       db.orders.filter (fun x => x.id == oid) = [o] → u.isManager = false →
       order_single_put db u oid d = (forbidden, db)) ∧
    (∀ (db : DB) (u : User) (oid : Nat) (d : OrderPatchData) (o : Order),
       db.orders.filter (fun x => x.id == oid) = [o] →
       u.isDeliveryCrew = true → o.delivery_crew ≠ some u.id →
       order_single_patch db u oid d = (forbidden, db)) ∧
    (∀ (db : DB) (u : User) (oid : Nat) (d : OrderPatchData) (o : Order),
       db.orders.filter (fun x => x.id == oid) = [o] →
       u.isDeliveryCrew = false → u.isManager = false →
       order_single_patch db u oid d = (forbidden, db)) ∧
    (∀ (db : DB) (u : User) (oid : Nat) (o : Order),
       db.orders.filter (fun x => x.id == oid) = [o] → u.isManager = false →
       order_single_delete db u oid = (forbidden, db)) := by
  refine ⟨?_, ?_, ?_, ?_, ?_⟩
  · intro db u title slug h
    simp [category_post, h]
  · intro db u oid d o hf h
    simp [order_single_put, hf, h]
  · intro db u oid d o hf hc hne
    simp [order_single_patch, hf, hc, hne]
  · intro db u oid d o hf hc hm
    simp [order_single_patch, hf, hc, hm]
  · intro db u oid o hf h
    simp [order_single_delete, hf, h]

/-- Witness for C4: each denied operation evaluated on a concrete
database returns Forbidden and the same database. -/
theorem role_denied_no_side_effects_witness :
    category_post ⟨[], [], [], [], [], []⟩ ⟨5, []⟩ "Mains" "mains" =
      (forbidden, ⟨[], [], [], [], [], []⟩) ∧
    order_single_put ⟨[], [], [], [⟨1, 7, none, false, 0, 10, 1⟩], [], []⟩
        ⟨5, ["Delivery crew"]⟩ 1 ⟨7, none, true, 0, 10⟩ =
      (forbidden, ⟨[], [], [], [⟨1, 7, none, false, 0, 10, 1⟩], [], []⟩) ∧
    order_single_patch ⟨[], [], [], [⟨1, 7, none, false, 0, 10, 1⟩], [], []⟩
        ⟨5, ["Delivery crew"]⟩ 1 {} =
      (forbidden, ⟨[], [], [], [⟨1, 7, none, false, 0, 10, 1⟩], [], []⟩) ∧
    order_single_patch ⟨[], [], [], [⟨1, 7, none, false, 0, 10, 1⟩], [], []⟩
        ⟨5, []⟩ 1 {} =
      (forbidden, ⟨[], [], [], [⟨1, 7, none, false, 0, 10, 1⟩], [], []⟩) ∧
    order_single_delete ⟨[], [], [], [⟨1, 7, none, false, 0, 10, 1⟩], [], []⟩
        ⟨5, []⟩ 1 =
      (forbidden, ⟨[], [], [], [⟨1, 7, none, false, 0, 10, 1⟩], [], []⟩) := by
  refine ⟨?_, ?_, ?_, ?_, ?_⟩
  · exact role_denied_no_side_effects.1 ⟨[], [], [], [], [], []⟩ ⟨5, []⟩
      "Mains" "mains" (by decide)
  · exact role_denied_no_side_effects.2.1
      ⟨[], [], [], [⟨1, 7, none, false, 0, 10, 1⟩], [], []⟩
      ⟨5, ["Delivery crew"]⟩ 1 ⟨7, none, true, 0, 10⟩
      ⟨1, 7, none, false, 0, 10, 1⟩ (by decide) (by decide)
  · exact role_denied_no_side_effects.2.2.1
      ⟨[], [], [], [⟨1, 7, none, false, 0, 10, 1⟩], [], []⟩
      ⟨5, ["Delivery crew"]⟩ 1 {} ⟨1, 7, none, false, 0, 10, 1⟩
      (by decide) (by decide) (by decide)
  · exact role_denied_no_side_effects.2.2.2.1
      ⟨[], [], [], [⟨1, 7, none, false, 0, 10, 1⟩], [], []⟩
      ⟨5, []⟩ 1 {} ⟨1, 7, none, false, 0, 10, 1⟩
      (by decide) (by decide) (by decide)
  · exact role_denied_no_side_effects.2.2.2.2
      ⟨[], [], [], [⟨1, 7, none, false, 0, 10, 1⟩], [], []⟩
      ⟨5, []⟩ 1 ⟨1, 7, none, false, 0, 10, 1⟩ (by decide) (by decide)

/-- Claim C8: a POST to /cart/menu-items by a user who already has a Cart
row returns 400 with no change to the database, and a cart POST never
takes a user from at most one Cart row to more than one. -/
theorem cart_post_at_most_one :
    (∀ (db : DB) (u : User) (m q : Nat),
       db.carts.any (fun c => c.user == u.id) = true →
       cart_post db u m q = (⟨.msg "The user has already a cart.", 400⟩, db)) ∧
    (∀ (db : DB) (u : User) (m q v : Nat),
       (db.carts.filter (fun c => c.user == v)).length ≤ 1 →
       ((cart_post db u m q).2.carts.filter (fun c => c.user == v)).length ≤ 1) := by
  constructor
  · intro db u m q h
    simp [cart_post, h]
  · intro db u m q v hlen
    have h2 : (cart_post db u m q).2 = db := by
      by_cases hany : db.carts.any (fun c => c.user == u.id) = true
      · simp [cart_post, hany]
      · rw [Bool.not_eq_true] at hany
        rcases hmi : db.menuItems.filter (fun x => x.id == m)
          with _ | ⟨mi, _ | _⟩ <;>
          simp [cart_post, hany, hmi]
    rw [h2]
    exact hlen

/-- Witness for C8: a second POST for a user who already has a cart is
refused, and the one-cart bound is preserved on a concrete database. -/
theorem cart_post_at_most_one_witness :
    cart_post ⟨[], [⟨2, "Pasta", 4, 1, false⟩], [⟨1, 2, 1, 4, 4⟩], [], [], []⟩
        ⟨1, []⟩ 2 3 =
      (⟨.msg "The user has already a cart.", 400⟩,
       ⟨[], [⟨2, "Pasta", 4, 1, false⟩], [⟨1, 2, 1, 4, 4⟩], [], [], []⟩) ∧
    ((cart_post ⟨[], [⟨2, "Pasta", 4, 1, false⟩], [⟨1, 2, 1, 4, 4⟩], [], [], []⟩
        ⟨1, []⟩ 2 3).2.carts.filter (fun c => c.user == 1)).length ≤ 1 := by
  constructor
  · exact cart_post_at_most_one.1 _ _ 2 3 (by decide)
  · exact cart_post_at_most_one.2 _ _ 2 3 1 (by decide)

/-- Claim C9: a POST to /ratings is accepted (201, row appended) exactly
when the value lies in [0,5] and no rating by the same user for the same
menu item exists; any rejection is a 400 that leaves the database
unchanged. -/
theorem rating_post_validation (db : DB) (u : User) (m : Nat) (r : Int) :
    ((rating_post db u m r).1.status = 201 ↔
       (0 ≤ r ∧ r ≤ 5 ∧
        db.ratings.any (fun x => x.user == u.id && x.menuitem == m) = false)) ∧
    (0 ≤ r → r ≤ 5 →
       db.ratings.any (fun x => x.user == u.id && x.menuitem == m) = false →
       rating_post db u m r =
         (⟨.ratingOne ⟨u.id, m, r⟩, 201⟩,
          { db with ratings := db.ratings ++ [⟨u.id, m, r⟩] })) ∧
    ((rating_post db u m r).1.status ≠ 201 →
       (rating_post db u m r).1.status = 400 ∧ (rating_post db u m r).2 = db) := by
  by_cases hrange : r < 0 ∨ 5 < r
  · have hres : rating_post db u m r = (⟨.msg "rating out of range", 400⟩, db) := by
      simp [rating_post, hrange]
    refine ⟨?_, ?_, ?_⟩
    · rw [hres]
      constructor
      · intro h
        simp at h
      · rintro ⟨ha, hb, -⟩
        exact absurd hrange (by omega)
    · intro ha hb _
      exact absurd hrange (by omega)
    · intro _
      rw [hres]
      exact ⟨rfl, rfl⟩
  · by_cases hdup : db.ratings.any (fun x => x.user == u.id && x.menuitem == m) = true
    · have hres : rating_post db u m r = (⟨.msg "duplicate rating", 400⟩, db) := by
        simp only [rating_post, hrange, if_false]
        simp [hdup]
      refine ⟨?_, ?_, ?_⟩
      · rw [hres]
        constructor
        · intro h
          simp at h
        · rintro ⟨-, -, hc⟩
          rw [hdup] at hc
          cases hc
      · intro _ _ hc
        rw [hdup] at hc
        cases hc
      · intro _
        rw [hres]
        exact ⟨rfl, rfl⟩
    · rw [Bool.not_eq_true] at hdup
      have hres : rating_post db u m r =
          (⟨.ratingOne ⟨u.id, m, r⟩, 201⟩,
           { db with ratings := db.ratings ++ [⟨u.id, m, r⟩] }) := by
        simp only [rating_post, hrange, if_false]
        simp [hdup]
      refine ⟨?_, fun _ _ _ => hres, ?_⟩
      · rw [hres]
        exact iff_of_true rfl ⟨by omega, by omega, hdup⟩
      · intro hne
        exact absurd (by rw [hres]) hne

/-- Witness for C9: on an empty table a rating of 3 is accepted; the
rejection clause is exercised at the duplicate that results. -/
theorem rating_post_validation_witness :
    rating_post ⟨[], [], [], [], [], []⟩ ⟨1, []⟩ 2 3 =
      (⟨.ratingOne ⟨1, 2, 3⟩, 201⟩, ⟨[], [], [], [], [], [⟨1, 2, 3⟩]⟩) ∧
    (rating_post ⟨[], [], [], [], [], [⟨1, 2, 3⟩]⟩ ⟨1, []⟩ 2 3).1.status = 400 := by
  constructor
  · exact (rating_post_validation ⟨[], [], [], [], [], []⟩ ⟨1, []⟩ 2 3).2.1
      (by decide) (by decide) (by decide)
  · exact ((rating_post_validation ⟨[], [], [], [], [], [⟨1, 2, 3⟩]⟩
      ⟨1, []⟩ 2 3).2.2 (by decide)).1

/-- Claim C5 (as the code behaves): the three successful DELETE branches
cited by the spec pass `status.HTTP_204_NO_CONTENT` as the `Response`
*data* argument, so each returns HTTP 200 with the bare integer 204 as
body — not a 204 No Content status.  Evaluated on concrete databases: a
Manager deleting menu item 1, a customer deleting their cart, and a
Manager deleting order 1. -/
theorem successful_delete_returns_200_with_body_204 :
    menuitems_single_delete ⟨[], [⟨1, "Pasta", 4, 1, false⟩], [], [], [], []⟩
        ⟨2, ["Manager"]⟩ 1 =
      (⟨.intVal 204, 200⟩, ⟨[], [], [], [], [], []⟩) ∧
    cart_delete ⟨[], [], [⟨3, 1, 2, 4, 8⟩], [], [], []⟩ ⟨3, []⟩ =
      (⟨.intVal 204, 200⟩, ⟨[], [], [], [], [], []⟩) ∧
    order_single_delete ⟨[], [], [], [⟨1, 7, none, false, 0, 10, 1⟩], [], []⟩
        ⟨2, ["Manager"]⟩ 1 =
      (⟨.intVal 204, 200⟩, ⟨[], [], [], [], [], []⟩) := by
  refine ⟨by decide, by decide, by decide⟩

/-- Claim C7 (as the code behaves): `CartSerializer.validate` does force
`price = quantity * unit_price` on the attributes it receives, leaving
the other fields alone — but the cart POST never creates a Cart row at
all: the serializer is built without context, so validating the declared
`user` field's `CurrentUserDefault` raises `KeyError('request')` before
any save.  Every cart POST leaves the database unchanged, and at the
concrete input the spec intends to succeed (menu item 2 present at price
4, quantity 3, no existing cart) the response is the 500 server error. -/
theorem cart_post_no_row_created :
    (∀ attrs : Cart,
       (cartSerializerValidate attrs).price =
           (attrs.quantity : Rat) * attrs.unit_price ∧
       (cartSerializerValidate attrs).quantity = attrs.quantity ∧
       (cartSerializerValidate attrs).unit_price = attrs.unit_price ∧
       (cartSerializerValidate attrs).user = attrs.user ∧
       (cartSerializerValidate attrs).menuitem = attrs.menuitem) ∧
    (∀ (db : DB) (u : User) (m q : Nat), (cart_post db u m q).2 = db) ∧
    cart_post ⟨[], [⟨2, "Pasta", 4, 1, false⟩], [], [], [], []⟩ ⟨1, []⟩ 2 3 =
      (serverError, ⟨[], [⟨2, "Pasta", 4, 1, false⟩], [], [], [], []⟩) := by
  refine ⟨fun attrs => ⟨rfl, rfl, rfl, rfl, rfl⟩, ?_, by decide⟩
  intro db u m q
  by_cases hany : db.carts.any (fun c => c.user == u.id) = true
  · simp [cart_post, hany]
  · rw [Bool.not_eq_true] at hany
    rcases hmi : db.menuItems.filter (fun x => x.id == m)
      with _ | ⟨mi, _ | _⟩ <;>
      simp [cart_post, hany, hmi]

/-- Claim C2: a Delivery crew PATCH of an order not assigned to the
requester is Forbidden with no change; a PATCH of an assigned order writes
exactly the submitted status into that order and nothing else — every
other field of the order, and every other row, is unchanged. -/
theorem delivery_crew_patch_status_only (db : DB) (u : User) (oid : Nat)
    (d : OrderPatchData) (o : Order)
    (hf : db.orders.filter (fun x => x.id == oid) = [o])
    (hc : u.isDeliveryCrew = true) :
    (o.delivery_crew ≠ some u.id →
       order_single_patch db u oid d = (forbidden, db)) ∧
    (∀ s, o.delivery_crew = some u.id → d.status = some s →
       order_single_patch db u oid d =
         (⟨.orderOne { o with status := s }, 205⟩,
          { db with orders := db.orders.map fun x =>
              if x.id == oid then { x with status := s } else x })) := by
  constructor
  · intro hne
    simp [order_single_patch, hf, hc, hne]
  · intro s hassigned hs
    simp [order_single_patch, hf, hc, hassigned, hs, updateOrder]

/-- Witness for C2: crew member 3 is refused on an order assigned to crew
member 9, and on their own order a PATCH carrying `status = 1` (and a
stray `total`) updates only the status. -/
theorem delivery_crew_patch_status_only_witness :
    order_single_patch ⟨[], [], [], [⟨1, 7, some 9, false, 5, 10, 1⟩], [], []⟩
        ⟨3, ["Delivery crew"]⟩ 1 ⟨none, none, some true, none, some 0⟩ =
      (forbidden, ⟨[], [], [], [⟨1, 7, some 9, false, 5, 10, 1⟩], [], []⟩) ∧
    order_single_patch ⟨[], [], [], [⟨1, 7, some 3, false, 5, 10, 1⟩], [], []⟩
        ⟨3, ["Delivery crew"]⟩ 1 ⟨none, none, some true, none, some 0⟩ =
      (⟨.orderOne ⟨1, 7, some 3, true, 5, 10, 1⟩, 205⟩,
       ⟨[], [], [], [⟨1, 7, some 3, true, 5, 10, 1⟩], [], []⟩) := by
  constructor
  · exact (delivery_crew_patch_status_only
      ⟨[], [], [], [⟨1, 7, some 9, false, 5, 10, 1⟩], [], []⟩
      ⟨3, ["Delivery crew"]⟩ 1 ⟨none, none, some true, none, some 0⟩
      ⟨1, 7, some 9, false, 5, 10, 1⟩ (by decide) (by decide)).1 (by decide)
  · have h := (delivery_crew_patch_status_only
      ⟨[], [], [], [⟨1, 7, some 3, false, 5, 10, 1⟩], [], []⟩
      ⟨3, ["Delivery crew"]⟩ 1 ⟨none, none, some true, none, some 0⟩
      ⟨1, 7, some 3, false, 5, 10, 1⟩ (by decide) (by decide)).2 true rfl rfl
    exact h.trans (by decide)

/-- Claim C6: menu-item pagination is page-based: `perpage` defaults to 2
and `page` to 1; a 1-based in-range page returns the slice starting at
`(page-1)*perpage`; a page beyond the last yields the empty list with
status 200 rather than an error. -/
theorem menuitems_pagination :
    (∀ (db : DB) (q : ListQuery),
       menuitems_get db { q with perpage := none } =
       menuitems_get db { q with perpage := some 2 }) ∧
    (∀ (db : DB) (q : ListQuery),
       menuitems_get db { q with page := none } =
       menuitems_get db { q with page := some 1 }) ∧
    (∀ (db : DB) (q : ListQuery) (items : List MenuItem),
       menuSorted db q = some items → q.perpage.getD 2 ≠ 0 →
       numPages items.length (q.perpage.getD 2) < q.page.getD 1 →
       menuitems_get db q = ⟨.menuItemList [], 200⟩) ∧
    (∀ (db : DB) (q : ListQuery) (items : List MenuItem) (p : Nat),
       menuSorted db q = some items → q.perpage.getD 2 ≠ 0 →
       q.page = some p → 1 ≤ p → p ≤ numPages items.length (q.perpage.getD 2) →
       menuitems_get db q =
         ⟨.menuItemList ((items.drop ((p - 1) * (q.perpage.getD 2))).take
            (q.perpage.getD 2)), 200⟩) := by
  refine ⟨fun db q => rfl, fun db q => rfl, ?_, ?_⟩
  · intro db q items hs hpp hlt
    simp only [menuitems_get, hs]
    rw [if_neg (by simp [hpp])]
    have hnone : paginatorPage items (q.perpage.getD 2) (q.page.getD 1) = none := by
      unfold paginatorPage
      rw [if_neg]
      rintro ⟨-, h2⟩
      omega
    rw [hnone]
    rfl
  · intro db q items p hs hpp hp h1 h2
    simp only [menuitems_get, hs, hp]
    rw [if_neg (by simp [hpp])]
    have hpage : paginatorPage items (q.perpage.getD 2) p =
        some ((items.drop ((p - 1) * (q.perpage.getD 2))).take
          (q.perpage.getD 2)) := by
      unfold paginatorPage
      rw [if_pos ⟨h1, h2⟩]
    simp only [Option.getD_some, hpage]

/-- Witness for C6: six menu items, page size 2: page 4 is out of range
and comes back empty with status 200, page 3 holds the last two items. -/
theorem menuitems_pagination_witness :
    menuitems_get ⟨[], [⟨1, "a", 1, 1, false⟩, ⟨2, "b", 2, 1, false⟩,
        ⟨3, "c", 3, 1, false⟩, ⟨4, "d", 4, 1, false⟩, ⟨5, "e", 5, 1, false⟩,
        ⟨6, "f", 6, 1, false⟩], [], [], [], []⟩
      ⟨none, none, none, none, none, some 4⟩ = ⟨.menuItemList [], 200⟩ ∧
    menuitems_get ⟨[], [⟨1, "a", 1, 1, false⟩, ⟨2, "b", 2, 1, false⟩,
        ⟨3, "c", 3, 1, false⟩, ⟨4, "d", 4, 1, false⟩, ⟨5, "e", 5, 1, false⟩,
        ⟨6, "f", 6, 1, false⟩], [], [], [], []⟩
      ⟨none, none, none, none, none, some 3⟩ =
      ⟨.menuItemList [⟨5, "e", 5, 1, false⟩, ⟨6, "f", 6, 1, false⟩], 200⟩ := by
  constructor
  · exact menuitems_pagination.2.2.1
      ⟨[], [⟨1, "a", 1, 1, false⟩, ⟨2, "b", 2, 1, false⟩, ⟨3, "c", 3, 1, false⟩,
        ⟨4, "d", 4, 1, false⟩, ⟨5, "e", 5, 1, false⟩, ⟨6, "f", 6, 1, false⟩],
        [], [], [], []⟩
      ⟨none, none, none, none, none, some 4⟩
      [⟨1, "a", 1, 1, false⟩, ⟨2, "b", 2, 1, false⟩, ⟨3, "c", 3, 1, false⟩,
       ⟨4, "d", 4, 1, false⟩, ⟨5, "e", 5, 1, false⟩, ⟨6, "f", 6, 1, false⟩]
      (by decide) (by decide) (by decide)
  · have h := menuitems_pagination.2.2.2
      ⟨[], [⟨1, "a", 1, 1, false⟩, ⟨2, "b", 2, 1, false⟩, ⟨3, "c", 3, 1, false⟩,
        ⟨4, "d", 4, 1, false⟩, ⟨5, "e", 5, 1, false⟩, ⟨6, "f", 6, 1, false⟩],
        [], [], [], []⟩
      ⟨none, none, none, none, none, some 3⟩
      [⟨1, "a", 1, 1, false⟩, ⟨2, "b", 2, 1, false⟩, ⟨3, "c", 3, 1, false⟩,
       ⟨4, "d", 4, 1, false⟩, ⟨5, "e", 5, 1, false⟩, ⟨6, "f", 6, 1, false⟩]
      3 (by decide) (by decide) rfl (by decide) (by decide)
    exact h.trans (by decide)

/-- Counterexample to claim C3 as stated: with three orders belonging to
user 9, a Manager's default GET does not receive all three orders (the
view paginates with default page size 2); and a Customer with no orders
does not receive the empty list of their orders — the view answers with
the integer 404 in the body of a 200 response. -/
theorem order_get_role_counterexample :
    (order_get ⟨[], [], [],
        [⟨1, 9, none, false, 0, 10, 1⟩, ⟨2, 9, none, false, 0, 10, 2⟩,
         ⟨3, 9, none, false, 0, 10, 3⟩], [], []⟩ ⟨1, ["Manager"]⟩ {} ≠
      ⟨.orderList [⟨1, 9, none, false, 0, 10, 1⟩, ⟨2, 9, none, false, 0, 10, 2⟩,
         ⟨3, 9, none, false, 0, 10, 3⟩], 200⟩) ∧
    (order_get ⟨[], [], [],
        [⟨1, 9, none, false, 0, 10, 1⟩, ⟨2, 9, none, false, 0, 10, 2⟩,
         ⟨3, 9, none, false, 0, 10, 3⟩], [], []⟩ ⟨2, []⟩ {} ≠
      ⟨.orderList [], 200⟩) ∧
    (order_get ⟨[], [], [],
        [⟨1, 9, none, false, 0, 10, 1⟩, ⟨2, 9, none, false, 0, 10, 2⟩,
         ⟨3, 9, none, false, 0, 10, 3⟩], [], []⟩ ⟨2, []⟩ {} =
      ⟨.intVal 404, 200⟩) := by
  refine ⟨by decide, by decide, by decide⟩

/-- Claim C3 as the code behaves: a Manager's GET /orders returns the
requested page (default size 2, default page 1) of the filtered and
sorted list of all orders; a Delivery crew member receives exactly the
orders whose `delivery_crew` is themselves; a Customer with at least one
order hits the single-object serialization of a queryset, a server error;
a Customer with no orders receives the integer 404 in a 200 response. -/
theorem order_get_role_visibility :
    (∀ (db : DB) (u : User) (q : ListQuery) (orders : List Order),
       u.isManager = true → ordersSorted db q = some orders →
       q.perpage.getD 2 ≠ 0 →
       order_get db u q =
         ⟨.orderList ((paginatorPage orders (q.perpage.getD 2)
            (q.page.getD 1)).getD []), 200⟩) ∧
    (∀ (db : DB) (u : User) (q : ListQuery),
       u.isManager = false → u.isDeliveryCrew = true →
       order_get db u q =
         ⟨.orderList (db.orders.filter
            (fun o => o.delivery_crew == some u.id)), 200⟩ ∧
       ∀ o : Order, o ∈ db.orders.filter (fun o => o.delivery_crew == some u.id)
         ↔ o ∈ db.orders ∧ o.delivery_crew = some u.id) ∧
    (∀ (db : DB) (u : User) (q : ListQuery),
       u.isManager = false → u.isDeliveryCrew = false →
       db.orders.any (fun o => o.user == u.id) = true →
       order_get db u q = serverError) ∧
    (∀ (db : DB) (u : User) (q : ListQuery),
       u.isManager = false → u.isDeliveryCrew = false →
       db.orders.any (fun o => o.user == u.id) = false →
       order_get db u q = ⟨.intVal 404, 200⟩) := by
  refine ⟨?_, ?_, ?_, ?_⟩
  · intro db u q orders hm hs hpp
    simp only [order_get, hm, if_true, hs]
    rw [if_neg (by simp [hpp])]
  · intro db u q hm hc
    refine ⟨by simp [order_get, hm, hc], ?_⟩
    intro o
    rw [List.mem_filter]
    simp
  · intro db u q hm hc hany
    simp [order_get, hm, hc, hany]
  · intro db u q hm hc hany
    simp [order_get, hm, hc, hany]

/-- Witness for C3 (amended): on the three-order database the Manager
receives the first page of two orders, crew member 4 exactly their one
order, a customer who owns an order gets the server error, and one who
does not gets the 200/404 body. -/
theorem order_get_role_visibility_witness :
    order_get ⟨[], [], [],
        [⟨1, 9, some 4, false, 0, 10, 1⟩, ⟨2, 9, none, false, 0, 10, 2⟩,
         ⟨3, 9, none, false, 0, 10, 3⟩], [], []⟩ ⟨1, ["Manager"]⟩ {} =
      ⟨.orderList [⟨1, 9, some 4, false, 0, 10, 1⟩,
         ⟨2, 9, none, false, 0, 10, 2⟩], 200⟩ ∧
    order_get ⟨[], [], [],
        [⟨1, 9, some 4, false, 0, 10, 1⟩, ⟨2, 9, none, false, 0, 10, 2⟩,
         ⟨3, 9, none, false, 0, 10, 3⟩], [], []⟩ ⟨4, ["Delivery crew"]⟩ {} =
      ⟨.orderList [⟨1, 9, some 4, false, 0, 10, 1⟩], 200⟩ ∧
    order_get ⟨[], [], [],
        [⟨1, 9, some 4, false, 0, 10, 1⟩, ⟨2, 9, none, false, 0, 10, 2⟩,
         ⟨3, 9, none, false, 0, 10, 3⟩], [], []⟩ ⟨9, []⟩ {} = serverError ∧
    order_get ⟨[], [], [],
        [⟨1, 9, some 4, false, 0, 10, 1⟩, ⟨2, 9, none, false, 0, 10, 2⟩,
         ⟨3, 9, none, false, 0, 10, 3⟩], [], []⟩ ⟨2, []⟩ {} =
      ⟨.intVal 404, 200⟩ := by
  refine ⟨?_, ?_, ?_, ?_⟩
  · have h := order_get_role_visibility.1
      ⟨[], [], [], [⟨1, 9, some 4, false, 0, 10, 1⟩, ⟨2, 9, none, false, 0, 10, 2⟩,
        ⟨3, 9, none, false, 0, 10, 3⟩], [], []⟩ ⟨1, ["Manager"]⟩ {}
      [⟨1, 9, some 4, false, 0, 10, 1⟩, ⟨2, 9, none, false, 0, 10, 2⟩,
       ⟨3, 9, none, false, 0, 10, 3⟩] (by decide) (by decide) (by decide)
    exact h.trans (by decide)
  · have h := (order_get_role_visibility.2.1
      ⟨[], [], [], [⟨1, 9, some 4, false, 0, 10, 1⟩, ⟨2, 9, none, false, 0, 10, 2⟩,
        ⟨3, 9, none, false, 0, 10, 3⟩], [], []⟩ ⟨4, ["Delivery crew"]⟩ {}
      (by decide) (by decide)).1
    exact h.trans (by decide)
  · exact order_get_role_visibility.2.2.1
      ⟨[], [], [], [⟨1, 9, some 4, false, 0, 10, 1⟩, ⟨2, 9, none, false, 0, 10, 2⟩,
        ⟨3, 9, none, false, 0, 10, 3⟩], [], []⟩ ⟨9, []⟩ {}
      (by decide) (by decide) (by decide)
  · exact order_get_role_visibility.2.2.2
      ⟨[], [], [], [⟨1, 9, some 4, false, 0, 10, 1⟩, ⟨2, 9, none, false, 0, 10, 2⟩,
        ⟨3, 9, none, false, 0, 10, 3⟩], [], []⟩ ⟨2, []⟩ {}
      (by decide) (by decide) (by decide)

/-- Claim C1 (as the code behaves): checkout never succeeds.  A user with
no Cart row gets Not Found; a user with exactly one Cart row gets the 400
validation failure — `OrderItemSerializer` receives none of its required
`order`/`menuitem` keys — with nothing created and the cart kept; a
duplicated cart row raises (500).  In every case the database is
unchanged; evaluated concretely for user 1 holding a cart of two units of
menu item 5 (total 6), and for a user with no cart. -/
theorem order_post_checkout_never_succeeds :
    (∀ (db : DB) (u : User), (order_post db u).2 = db) ∧
    order_post ⟨[], [], [⟨1, 5, 2, 3, 6⟩], [], [], []⟩ ⟨1, []⟩ =
      (validationFailed, ⟨[], [], [⟨1, 5, 2, 3, 6⟩], [], [], []⟩) ∧
    order_post ⟨[], [], [], [], [], []⟩ ⟨1, []⟩ =
      (notFound, ⟨[], [], [], [], [], []⟩) := by
  refine ⟨?_, by decide, by decide⟩
  intro db u
  rcases h : db.carts.filter (fun c => c.user == u.id) with _ | ⟨c, _ | _⟩ <;>
    simp [order_post, h]

end LittleLemon
